import Mathlib

/-!
Verification development for the latency-based BGP best-path selection
repository (twamp_daemon.py and twamp_reflector.py).

The shared-memory region is modelled as a list of byte values (each < 256
where relevant).  Python mmap slicing m[a:b] is modelled by pySlice, and
mmap slice assignment by pySliceAssign.  The struct.pack / struct.unpack
calls of the source are modelled by functions specialised to the exact
format strings the source uses; a struct.error or ValueError raised by the
Python code is modelled as Option.none propagating outward.
-/

/-- Python slice m[a:b] on a byte buffer: elements a .. b-1, clamped. -/
def pySlice (m : List Nat) (a b : Nat) : List Nat :=
  (m.drop a).take (b - a)

/-- Big-endian decoding of a byte list, as struct.unpack does for
multi-byte fields under the ! prefix. -/
def fromBytesBE (bs : List Nat) : Nat :=
  bs.foldl (fun acc b => acc * 256 + b) 0

/-- Big-endian encoding of v into w bytes (most significant first),
as struct.pack does for a w-byte field under the ! prefix. -/
def toBytesBE : Nat → Nat → List Nat
  | 0, _ => []
  | w + 1, v => toBytesBE w (v / 256) ++ [v % 256]

/-- Little-endian decoding of a byte list; models native byte order of
struct format I without a prefix, on the little-endian hosts the daemon
targets (read_nexthop_count, twamp_daemon.py line 140). -/
def fromBytesLE (bs : List Nat) : Nat :=
  bs.foldr (fun b acc => b + 256 * acc) 0

/-- The dictionary returned by read_nexthop (twamp_daemon.py lines 154-160). -/
structure NexthopDict where
  addr : Nat
  active : Nat
  measured : Nat
  latency_ms : Nat
  last_updated : Nat
  deriving Repr, DecidableEq

/-- struct.unpack with format !IBBHIQ (twamp_daemon.py line 152).
The format describes I(4) B(1) B(1) H(2) I(4) Q(8) = 20 bytes and yields
exactly 6 values; unpack raises struct.error (modelled as none) unless the
buffer is exactly 20 bytes. -/
def unpack_IBBHIQ (data : List Nat) : Option (List Nat) :=
  if data.length = 20 then
    some [fromBytesBE (pySlice data 0 4), fromBytesBE (pySlice data 4 5),
          fromBytesBE (pySlice data 5 6), fromBytesBE (pySlice data 6 8),
          fromBytesBE (pySlice data 8 12), fromBytesBE (pySlice data 12 20)]
  else none

/-- The tuple assignment at twamp_daemon.py line 152 destructures the
unpacked tuple into the 7 names addr, active, measured, pad1, pad2,
latency, last_updated, and lines 154-160 build the result dictionary.
Destructuring a tuple of any other arity raises ValueError (none). -/
def assign7 (vs : List Nat) : Option NexthopDict :=
  match vs with
  | [a, act, me, _pad1, _pad2, lat, lu] => some ⟨a, act, me, lat, lu⟩
  | _ => none

/-- read_nexthop (twamp_daemon.py lines 143-160): slices the 24-byte entry
at offset 52 + 24*index and unpacks it with format !IBBHIQ. -/
def read_nexthop (m : List Nat) (index : Nat) : Option NexthopDict :=
  (unpack_IBBHIQ (pySlice m (52 + index * 24) (52 + index * 24 + 24))).bind assign7

/-- struct.pack with format !IBBHIQ (twamp_daemon.py lines 176 and 199).
The format has exactly 6 fields; packing any other number of values, or a
value out of the field's range, raises struct.error (none). -/
def pack_IBBHIQ (vals : List Nat) : Option (List Nat) :=
  match vals with
  | [a, b, c, d, e, f] =>
    if a < 2 ^ 32 ∧ b < 2 ^ 8 ∧ c < 2 ^ 8 ∧ d < 2 ^ 16 ∧ e < 2 ^ 32 ∧ f < 2 ^ 64 then
      some (toBytesBE 4 a ++ toBytesBE 1 b ++ toBytesBE 1 c ++
            toBytesBE 2 d ++ toBytesBE 4 e ++ toBytesBE 8 f)
    else none
  | _ => none

/-- mmap slice assignment m[off:off+len] = data (twamp_daemon.py lines
184 and 207): requires the replacement to have exactly the slice's length,
otherwise IndexError (none). -/
def pySliceAssign (m : List Nat) (off len : Nat) (data : List Nat) : Option (List Nat) :=
  if data.length = len ∧ off + len ≤ m.length then
    some (m.take off ++ data ++ m.drop (off + len))
  else none

/-- write_nexthop_latency (twamp_daemon.py lines 162-184): re-reads the
entry, then packs addr, active, measured=1, two padding zeros, latency_ms,
last_updated=now (7 values) with format !IBBHIQ and writes the result back
over the entry's 24 bytes. -/
def write_nexthop_latency (m : List Nat) (index latency_ms now : Nat) : Option (List Nat) :=
  (read_nexthop m index).bind fun nh =>
    (pack_IBBHIQ [nh.addr, nh.active, 1, 0, 0, latency_ms, now]).bind fun data =>
      pySliceAssign m (52 + index * 24) 24 data

/-- mark_nexthop_failed (twamp_daemon.py lines 186-207): re-reads the
entry, then packs addr, active, measured=0, two padding zeros,
latency_ms=0xFFFFFFFF, the prior last_updated (7 values) with format
!IBBHIQ and writes the result back over the entry's 24 bytes. -/
def mark_nexthop_failed (m : List Nat) (index : Nat) : Option (List Nat) :=
  (read_nexthop m index).bind fun nh =>
    (pack_IBBHIQ [nh.addr, nh.active, 0, 0, 0, 4294967295, nh.last_updated]).bind fun data =>
      pySliceAssign m (52 + index * 24) 24 data

/-- unpack_IBBHIQ either fails or yields exactly 6 values. -/
theorem unpack_IBBHIQ_cases (data : List Nat) :
    unpack_IBBHIQ data = none ∨
    ∃ a b c d e f, unpack_IBBHIQ data = some [a, b, c, d, e, f] := by
  unfold unpack_IBBHIQ
  split
  · exact Or.inr ⟨_, _, _, _, _, _, rfl⟩
  · exact Or.inl rfl

/-- Destructuring the 6-tuple produced by unpack into the 7 names of
twamp_daemon.py line 152 raises ValueError. -/
theorem assign7_of_six (a b c d e f : Nat) : assign7 [a, b, c, d, e, f] = none := rfl

/-- Every call of read_nexthop raises: the 24-byte entry slice never
matches the 20-byte format !IBBHIQ, and even a 20-byte slice would unpack
to a 6-tuple that cannot be destructured into 7 variables. -/
theorem read_nexthop_eq_none (m : List Nat) (i : Nat) : read_nexthop m i = none := by
  unfold read_nexthop
  rcases unpack_IBBHIQ_cases (pySlice m (52 + i * 24) (52 + i * 24 + 24)) with h | ⟨a, b, c, d, e, f, h⟩ <;>
    rw [h] <;> rfl

/-- Every call of write_nexthop_latency raises before mutating anything. -/
theorem write_nexthop_latency_eq_none (m : List Nat) (i L now : Nat) :
    write_nexthop_latency m i L now = none := by
  unfold write_nexthop_latency
  rw [read_nexthop_eq_none]
  rfl

/-- Every call of mark_nexthop_failed raises before mutating anything. -/
theorem mark_nexthop_failed_eq_none (m : List Nat) (i : Nat) :
    mark_nexthop_failed m i = none := by
  unfold mark_nexthop_failed
  rw [read_nexthop_eq_none]
  rfl

/-- Outcome of one probe iteration of measure_twamp_light (twamp_daemon.py
lines 82-94): a reply arrives with some round-trip time, the receive times
out (socket.timeout, caught, burst continues), or a socket-level error is
raised (escapes the inner try, caught by the outer handler at line 111). -/
inductive ProbeEvent where
  | reply (rtt : ℚ)
  | timeout
  | sockErr
  deriving DecidableEq

/-- The rtts list built by the probe loop (twamp_daemon.py lines 65-98):
replies append a sample, timeouts continue, a socket error aborts the
whole burst (none). -/
def collectRtts : List ProbeEvent → Option (List ℚ)
  | [] => some []
  | ProbeEvent.reply r :: es => (collectRtts es).map (fun rs => r :: rs)
  | ProbeEvent.timeout :: es => collectRtts es
  | ProbeEvent.sockErr :: _ => none

/-- measure_twamp_light (twamp_daemon.py lines 58-113), with the burst's
per-packet network outcomes as the event list (one event per iteration,
so the packet count is events.length).  Returns the arithmetic mean of
the collected samples (line 106: return avg_rtt), or none when the
samples list is empty (line 109) or a socket error aborted the burst
(line 113).  The loss percentage computed at line 104 is only printed. -/
def measure_twamp_light (events : List ProbeEvent) : Option ℚ :=
  match collectRtts events with
  | none => none
  | some [] => none
  | some (r :: rs) => some ((r :: rs).sum / ((r :: rs).length : ℚ))

/-- Modelled from the spec's words for claim C5 (spec section 4.2):
measureRoundTrip returns the pair of the arithmetic mean of collected
RTTs and lossFraction = (packetCount - samples) / packetCount.  This is
the specification-side definition to be compared with the source-side
measure_twamp_light. -/
def measureRoundTrip_withLoss (events : List ProbeEvent) : Option (ℚ × ℚ) :=
  match collectRtts events with
  | none => none
  | some [] => none
  | some (r :: rs) =>
    some ((r :: rs).sum / ((r :: rs).length : ℚ),
          ((events.length : ℚ) - ((r :: rs).length : ℚ)) / (events.length : ℚ))

/-- struct.pack with format !IQQ (twamp_daemon.py line 77): I(4) Q(8) Q(8),
20 bytes big-endian; struct.error (none) when a value is out of range. -/
def pack_IQQ (a b c : Nat) : Option (List Nat) :=
  if a < 2 ^ 32 ∧ b < 2 ^ 64 ∧ c < 2 ^ 64 then
    some (toBytesBE 4 a ++ toBytesBE 8 b ++ toBytesBE 8 c)
  else none

/-- The probe packet built for the i-th (1-based) iteration of the burst
(twamp_daemon.py lines 71-77): seq_num = i, the originate timestamp in
microseconds, and a zero-filled 8-byte reserved field. -/
def probe_packet (i nowMicros : Nat) : Option (List Nat) :=
  pack_IQQ i nowMicros 0

/-- int(latency + 0.5) for a non-negative latency (twamp_daemon.py
line 239): round to nearest millisecond. -/
def ratRound (x : ℚ) : Nat := (x + 1 / 2).floor.toNat

/-- read_nexthop_count (twamp_daemon.py lines 136-141): unpack native
format I from the 4 bytes at offset 40; struct.error (none) when the
slice is not exactly 4 bytes. -/
def read_nexthop_count (m : List Nat) : Option Nat :=
  if (pySlice m 40 44).length = 4 then some (fromBytesLE (pySlice m 40 44)) else none

/-- The per-entry loop of run_measurement_cycle (twamp_daemon.py lines
226-248), with the network abstracted as an oracle giving the result of
measure_twamp_light for each index: read the entry; skip inactive
entries; otherwise write the rounded latency or mark the entry failed.
Any exception (none) propagates and aborts the cycle. -/
def cycle_loop (oracle : Nat → Option ℚ) (now : Nat) :
    List Nat → Nat → Nat → Option (List Nat)
  | m, _, 0 => some m
  | m, i, rem + 1 =>
    match read_nexthop m i with
    | none => none
    | some nh =>
      if nh.active = 0 then cycle_loop oracle now m (i + 1) rem
      else
        match oracle i with
        | some lat =>
          (write_nexthop_latency m i (ratRound lat) now).bind fun m2 =>
            cycle_loop oracle now m2 (i + 1) rem
        | none =>
          (mark_nexthop_failed m i).bind fun m2 =>
            cycle_loop oracle now m2 (i + 1) rem

/-- run_measurement_cycle (twamp_daemon.py lines 209-250): read the
next-hop count; when it is zero return without touching the region
(line 217-219); otherwise iterate the entries. -/
def run_measurement_cycle (m : List Nat) (oracle : Nat → Option ℚ) (now : Nat) :
    Option (List Nat) :=
  match read_nexthop_count m with
  | none => none
  | some 0 => some m
  | some (c + 1) => cycle_loop oracle now m 0 (c + 1)

/-- One received datagram handled by the reflector's listening loop
(twamp_reflector.py lines 44-60): a datagram shorter than 20 bytes is
discarded without reply; otherwise the counter is incremented and the
exact received bytes are sent back to the sender's address and port. -/
def reflector_step (packet_count : Nat) (data : List Nat) (addr : Nat × Nat) :
    Nat × Option (List Nat × (Nat × Nat)) :=
  if data.length < 20 then (packet_count, none)
  else (packet_count + 1, some (data, addr))

/-- Claim C1 (code_bug evidence): for every region, index, latency and
timestamp, write_nexthop_latency raises struct.error (none) and so does
the subsequent read_nexthop, so the write-then-read round trip claimed by
the spec never completes. -/
theorem C1_write_then_read_always_raises (m : List Nat) (i L now : Nat) :
    write_nexthop_latency m i L now = none ∧ read_nexthop m i = none :=
  ⟨write_nexthop_latency_eq_none m i L now, read_nexthop_eq_none m i⟩

/-- Claim C2 (code_bug evidence): for every region and index,
mark_nexthop_failed raises struct.error (none) and so does the subsequent
read_nexthop, so the mark-then-read round trip claimed by the spec never
completes and no lastUpdated value is ever preserved or observed. -/
theorem C2_markFailed_then_read_always_raises (m : List Nat) (i : Nat) :
    mark_nexthop_failed m i = none ∧ read_nexthop m i = none :=
  ⟨mark_nexthop_failed_eq_none m i, read_nexthop_eq_none m i⟩

/-- Claim C3 (code_bug evidence): no codec write ever completes — both
write_nexthop_latency and mark_nexthop_failed raise on every input — so
the claimed post-write invariant is never established by the code. -/
theorem C3_no_codec_write_completes (m : List Nat) (i L now : Nat) :
    (write_nexthop_latency m i L now).isNone = true ∧
    (mark_nexthop_failed m i).isNone = true := by
  rw [write_nexthop_latency_eq_none, mark_nexthop_failed_eq_none]
  exact ⟨rfl, rfl⟩

/-- Claim C4 (code_bug evidence): both codec writes raise before reaching
the slice assignment, so no call ever modifies the 24 bytes of its entry
(or any other byte); the claimed completed single-entry write never
happens. -/
theorem C4_codec_writes_raise_before_mutation (m : List Nat) (i L now : Nat) :
    write_nexthop_latency m i L now = Option.none ∧
    mark_nexthop_failed m i = Option.none :=
  ⟨write_nexthop_latency_eq_none m i L now, mark_nexthop_failed_eq_none m i⟩

/-- Claim C10 (code_bug evidence): calling mark_nexthop_failed twice in
succession raises on the first call already, as does a single call, so
the claimed idempotent rewrite of the entry's 24 bytes never occurs. -/
theorem C10_markFailed_twice_raises (m : List Nat) (i : Nat) :
    (mark_nexthop_failed m i).bind (fun m2 => mark_nexthop_failed m2 i) = none ∧
    mark_nexthop_failed m i = none := by
  rw [mark_nexthop_failed_eq_none]
  exact ⟨rfl, rfl⟩

/-- Claim C8 (code_bug evidence): when the stored count is zero the cycle
returns with the region untouched, exactly as claimed; but for every
nonzero count the cycle aborts with struct.error at the very first entry
read (before the active flag is even inspected), so inactive entries are
never skipped-and-passed-over as the claim describes — the whole cycle
dies instead. -/
theorem C8_cycle_noop_or_raise (m : List Nat) (oracle : Nat → Option ℚ) (now k : Nat) :
    (read_nexthop_count m = some 0 → run_measurement_cycle m oracle now = some m) ∧
    (read_nexthop_count m = some (k + 1) → run_measurement_cycle m oracle now = none) := by
  constructor
  · intro h
    unfold run_measurement_cycle
    rw [h]
  · intro h
    unfold run_measurement_cycle
    rw [h]
    show cycle_loop oracle now m 0 (k + 1) = none
    unfold cycle_loop
    rw [read_nexthop_eq_none]

/-- A region whose header count field is zero: 40 lock bytes and a zero
count word. -/
def rgEmpty : List Nat := List.replicate 44 0

/-- A region whose header count field decodes to one. -/
def rgOne : List Nat := List.replicate 40 0 ++ [1, 0, 0, 0]

/-- A measurement oracle that always reports total probe failure. -/
def oracleNone : Nat → Option ℚ := fun _ => none

/-- Claim C8 witness: concrete regions with count 0 and count 1
exercising both branches of the cycle theorem. -/
theorem C8_cycle_noop_or_raise_witness :
    (read_nexthop_count rgEmpty = some 0 ∧
      run_measurement_cycle rgEmpty oracleNone 0 = some rgEmpty) ∧
    (read_nexthop_count rgOne = some 1 ∧
      run_measurement_cycle rgOne oracleNone 0 = none) :=
  ⟨⟨by decide, (C8_cycle_noop_or_raise rgEmpty oracleNone 0 0).1 (by decide)⟩,
   ⟨by decide, (C8_cycle_noop_or_raise rgOne oracleNone 0 0).2 (by decide)⟩⟩

/-- Claim C5 counterexample: two bursts with the same mean but different
loss fractions are indistinguishable by measure_twamp_light, so its
return value cannot be (and is not) the pair of mean and loss fraction:
the code returns the mean alone while the spec-side pair distinguishes
loss 0 from loss 1/2. -/
theorem C5_loss_not_returned :
    measure_twamp_light [ProbeEvent.reply 10, ProbeEvent.reply 10] =
      measure_twamp_light [ProbeEvent.reply 10, ProbeEvent.timeout] ∧
    (measureRoundTrip_withLoss [ProbeEvent.reply 10, ProbeEvent.reply 10]).map Prod.snd =
      some 0 ∧
    (measureRoundTrip_withLoss [ProbeEvent.reply 10, ProbeEvent.timeout]).map Prod.snd =
      some (1 / 2) := by
  refine ⟨?_, ?_, ?_⟩ <;> norm_num [measure_twamp_light, measureRoundTrip_withLoss, collectRtts]

/-- Claim C5 as amended: when at least one RTT sample is collected,
measure_twamp_light returns the arithmetic mean of the collected samples
alone (the loss percentage is computed only for the log line). -/
theorem C5_returns_mean_alone (events : List ProbeEvent) (rtts : List ℚ)
    (h1 : collectRtts events = some rtts) (h2 : 0 < rtts.length) :
    measure_twamp_light events = some (rtts.sum / (rtts.length : ℚ)) := by
  unfold measure_twamp_light
  rw [h1]
  cases rtts with
  | nil => simp at h2
  | cons r rs => rfl

/-- Claim C5 witness: a concrete two-packet burst with one reply. -/
theorem C5_returns_mean_alone_witness :
    collectRtts [ProbeEvent.reply 4, ProbeEvent.timeout] = some [4] ∧
    0 < List.length ([4] : List ℚ) ∧
    measure_twamp_light [ProbeEvent.reply 4, ProbeEvent.timeout] =
      some (List.sum ([4] : List ℚ) / (List.length ([4] : List ℚ) : ℚ)) :=
  ⟨by decide, by decide,
   C5_returns_mean_alone [ProbeEvent.reply 4, ProbeEvent.timeout] [4] (by decide) (by decide)⟩

/-- The per-event sample extractor: a reply carries its RTT sample. -/
def replyRtt : ProbeEvent → Option ℚ
  | ProbeEvent.reply r => some r
  | _ => none

/-- collectRtts aborts (none) exactly when the burst contains a
socket-level error. -/
theorem collectRtts_eq_none_iff (es : List ProbeEvent) :
    collectRtts es = none ↔ ProbeEvent.sockErr ∈ es := by
  induction es with
  | nil => simp [collectRtts]
  | cons e es ih =>
    cases e with
    | reply r =>
      simp only [collectRtts, List.mem_cons]
      rw [Option.map_eq_none']
      simp [ih]
    | timeout =>
      simp only [collectRtts, List.mem_cons]
      simp [ih]
    | sockErr => simp [collectRtts]

/-- Without a socket error, collectRtts returns exactly the replies'
samples in order. -/
theorem collectRtts_eq_some (es : List ProbeEvent) (h : ProbeEvent.sockErr ∉ es) :
    collectRtts es = some (es.filterMap replyRtt) := by
  induction es with
  | nil => rfl
  | cons e es ih =>
    have he : ProbeEvent.sockErr ∉ es := fun hm => h (List.mem_cons_of_mem _ hm)
    cases e with
    | reply r => simp [collectRtts, List.filterMap_cons, replyRtt, ih he]
    | timeout => simp [collectRtts, List.filterMap_cons, replyRtt, ih he]
    | sockErr => exact absurd (List.mem_cons_self _ _) h

/-- Claim C6: measure_twamp_light returns none exactly when the burst
yields no RTT sample — either a socket-level error aborted the burst
(whatever came after it is irrelevant) or every packet was a reply-less
timeout; and a timeout merely continues the burst without affecting the
result computed from the remaining packets. -/
theorem C6_none_iff_zero_samples (events pre post : List ProbeEvent) :
    (measure_twamp_light events = none ↔
      (ProbeEvent.sockErr ∈ events ∨ ∀ r : ℚ, ProbeEvent.reply r ∉ events)) ∧
    measure_twamp_light (pre ++ ProbeEvent.timeout :: post) =
      measure_twamp_light (pre ++ post) ∧
    measure_twamp_light (pre ++ ProbeEvent.sockErr :: post) = none := by
  refine ⟨?_, ?_, ?_⟩
  · by_cases hs : ProbeEvent.sockErr ∈ events
    · have hc : collectRtts events = none := (collectRtts_eq_none_iff events).mpr hs
      unfold measure_twamp_light
      rw [hc]
      simp [hs]
    · have hc := collectRtts_eq_some events hs
      unfold measure_twamp_light
      rw [hc]
      rcases hfm : events.filterMap replyRtt with _ | ⟨r, rs⟩
      · simp only [hfm]
        constructor
        · intro _
          refine Or.inr fun r hr => ?_
          have := List.forall_none_of_filterMap_eq_nil hfm _ hr
          simp [replyRtt] at this
        · intro _
          trivial
      · simp only [hfm]
        constructor
        · intro h
          exact absurd h (by simp)
        · intro h
          rcases h with h | h
          · exact absurd h hs
          · have hr : ProbeEvent.reply r ∈ events := by
              have : r ∈ events.filterMap replyRtt := by rw [hfm]; exact List.mem_cons_self _ _
              rcases List.mem_filterMap.mp this with ⟨e, he, hre⟩
              cases e with
              | reply rtt =>
                simp only [replyRtt, Option.some.injEq] at hre
                rwa [hre] at he
              | timeout => simp [replyRtt] at hre
              | sockErr => simp [replyRtt] at hre
            exact absurd hr (h r)
  · have : collectRtts (pre ++ ProbeEvent.timeout :: post) = collectRtts (pre ++ post) := by
      induction pre with
      | nil => rfl
      | cons e pre ih =>
        cases e with
        | reply r => simp [collectRtts, List.cons_append, ih]
        | timeout => simp [collectRtts, List.cons_append, ih]
        | sockErr => rfl
    unfold measure_twamp_light
    rw [this]
  · have : collectRtts (pre ++ ProbeEvent.sockErr :: post) = none := by
      rw [collectRtts_eq_none_iff]
      simp
    unfold measure_twamp_light
    rw [this]

/-- Claim C6 witness: a concrete instantiation of the theorem at a
one-timeout burst with concrete prefix and suffix. -/
theorem C6_none_iff_zero_samples_witness :
    (measure_twamp_light [ProbeEvent.timeout] = none ↔
      (ProbeEvent.sockErr ∈ [ProbeEvent.timeout] ∨
        ∀ r : ℚ, ProbeEvent.reply r ∉ [ProbeEvent.timeout])) ∧
    measure_twamp_light ([ProbeEvent.reply 2] ++ ProbeEvent.timeout :: [ProbeEvent.reply 6]) =
      measure_twamp_light ([ProbeEvent.reply 2] ++ [ProbeEvent.reply 6]) ∧
    measure_twamp_light ([ProbeEvent.reply 2] ++ ProbeEvent.sockErr :: [ProbeEvent.reply 6]) =
      none :=
  C6_none_iff_zero_samples [ProbeEvent.timeout] [ProbeEvent.reply 2] [ProbeEvent.reply 6]

/-- toBytesBE always produces exactly w bytes. -/
theorem toBytesBE_length (w : Nat) : ∀ v, (toBytesBE w v).length = w := by
  induction w with
  | zero => intro v; rfl
  | succ w ih =>
    intro v
    simp [toBytesBE, ih]

/-- Appending one byte shifts the big-endian value by one place. -/
theorem fromBytesBE_append_singleton (xs : List Nat) (b : Nat) :
    fromBytesBE (xs ++ [b]) = 256 * fromBytesBE xs + b := by
  unfold fromBytesBE
  rw [List.foldl_append]
  simp [Nat.mul_comm]

/-- Decoding inverts encoding up to the field's modulus. -/
theorem fromBytesBE_toBytesBE (w : Nat) : ∀ v, fromBytesBE (toBytesBE w v) = v % 256 ^ w := by
  induction w with
  | zero =>
    intro v
    simp [toBytesBE, fromBytesBE, Nat.mod_one]
  | succ w ih =>
    intro v
    rw [toBytesBE, fromBytesBE_append_singleton, ih]
    rw [pow_succ']
    rw [Nat.mod_mul]
    omega

/-- Every byte produced by toBytesBE is below 256. -/
theorem toBytesBE_lt (w : Nat) : ∀ v, ∀ b ∈ toBytesBE w v, b < 256 := by
  induction w with
  | zero => intro v b hb; simp [toBytesBE] at hb
  | succ w ih =>
    intro v b hb
    rw [toBytesBE] at hb
    rcases List.mem_append.mp hb with h | h
    · exact ih _ b h
    · rcases List.mem_singleton.mp h with rfl
      exact Nat.mod_lt _ (by norm_num)

/-- Claim C7: for the i-th probe of a burst (1-based), the packet built by
measure_twamp_light is exactly 20 bytes of byte values, decoding
big-endian as sequence = i (4 bytes), originate timestamp (8 bytes) and a
zero reserved field (8 bytes). -/
theorem C7_probe_packet_wire_format (i ts : Nat) (h0 : 1 ≤ i) (h1 : i < 2 ^ 32)
    (h2 : ts < 2 ^ 64) :
    ∃ p, probe_packet i ts = some p ∧ p.length = 20 ∧
      fromBytesBE (p.take 4) = i ∧ fromBytesBE ((p.drop 4).take 8) = ts ∧
      fromBytesBE (p.drop 12) = 0 ∧ ∀ b ∈ p, b < 256 := by
  refine ⟨toBytesBE 4 i ++ toBytesBE 8 ts ++ toBytesBE 8 0, ?_, ?_, ?_, ?_, ?_, ?_⟩
  · unfold probe_packet pack_IQQ
    rw [if_pos ⟨h1, h2, by norm_num⟩]
  · simp [toBytesBE_length]
  · rw [List.append_assoc, List.take_left' (toBytesBE_length 4 i)]
    rw [fromBytesBE_toBytesBE]
    exact Nat.mod_eq_of_lt (by norm_num at h1 ⊢; omega)
  · rw [List.append_assoc, List.drop_left' (toBytesBE_length 4 i),
      List.take_left' (toBytesBE_length 8 ts)]
    rw [fromBytesBE_toBytesBE]
    exact Nat.mod_eq_of_lt (by norm_num at h2 ⊢; omega)
  · have h12 : (12 : Nat) = ((toBytesBE 4 i ++ toBytesBE 8 ts).length) := by
      simp [toBytesBE_length]
    rw [h12, List.drop_left]
    rw [fromBytesBE_toBytesBE]
    simp
  · intro b hb
    rcases List.mem_append.mp hb with h | h
    · rcases List.mem_append.mp h with h | h
      · exact toBytesBE_lt 4 i b h
      · exact toBytesBE_lt 8 ts b h
    · exact toBytesBE_lt 8 0 b h

/-- Claim C7 witness: the first probe packet with a small concrete
timestamp. -/
theorem C7_probe_packet_wire_format_witness :
    (1 ≤ 1 ∧ 1 < 2 ^ 32 ∧ 5 < 2 ^ 64) ∧
    ∃ p, probe_packet 1 5 = some p ∧ p.length = 20 ∧
      fromBytesBE (p.take 4) = 1 ∧ fromBytesBE ((p.drop 4).take 8) = 5 ∧
      fromBytesBE (p.drop 12) = 0 ∧ ∀ b ∈ p, b < 256 :=
  ⟨⟨by decide, by decide, by decide⟩,
   C7_probe_packet_wire_format 1 5 (by decide) (by decide) (by decide)⟩

/-- Claim C9: a datagram of at least 20 bytes is echoed verbatim to the
sender's address and port (and counted); a shorter datagram produces no
reply and leaves the counter unchanged. -/
theorem C9_reflector_echo (pc : Nat) (data : List Nat) (addr : Nat × Nat) :
    (20 ≤ data.length → reflector_step pc data addr = (pc + 1, some (data, addr))) ∧
    (data.length < 20 → reflector_step pc data addr = (pc, none)) := by
  constructor
  · intro h
    unfold reflector_step
    rw [if_neg (by omega)]
  · intro h
    unfold reflector_step
    rw [if_pos h]

/-- Claim C9 witness: a concrete 20-byte datagram is echoed and a
concrete 10-byte datagram is discarded. -/
theorem C9_reflector_echo_witness :
    (20 ≤ (List.replicate 20 9).length ∧
      reflector_step 3 (List.replicate 20 9) (1, 862) =
        (3 + 1, some (List.replicate 20 9, (1, 862)))) ∧
    ((List.replicate 10 9).length < 20 ∧
      reflector_step 3 (List.replicate 10 9) (1, 862) = (3, none)) :=
  ⟨⟨by decide, (C9_reflector_echo 3 (List.replicate 20 9) (1, 862)).1 (by decide)⟩,
   ⟨by decide, (C9_reflector_echo 3 (List.replicate 10 9) (1, 862)).2 (by decide)⟩⟩
